import Mathlib

/-!
Shallow embedding of the page-object layer of the CarSphere UI test harness
(src/pages/base_page.py, login_page.py, dashboard_page.py, register_page.py).

The Selenium waiter (`WebDriverWait(driver, 10).until(EC....)`) polls the live
document at a fixed interval until the expected condition yields a truthy
value or the timeout elapses, in which case it raises `TimeoutException`.
We embed one action invocation by recording, for each locator the action
waits on, the finite sequence of snapshots the poll loop observes for that
locator (each method below waits on any given locator at most once per
invocation, so one sequence per locator per invocation is exact):
  * `presence loc`   — snapshots seen by `EC.presence_of_element_located`
                       (`none` = no node matched on that poll);
  * `visibility loc` — snapshots seen by `EC.visibility_of_element_located`;
  * `allPresence loc` — node lists seen by `EC.presence_of_all_elements_located`
                       (the empty list is falsy, so the loop keeps polling).
A raised Python exception is the `.error` case of `Except`.
-/

namespace CarSphere

/-- Locator strategy (`selenium.webdriver.common.by.By`). -/
inductive By where
  | id
  | css
  | xpath
  | tag
  | className
deriving DecidableEq

/-- A Selenium locator tuple `(By.<strategy>, selector)`. -/
structure Locator where
  strategy : By
  selector : String
deriving DecidableEq

/-- A resolved DOM node: an identity, its rendered text (`.text`) and the
string returned by `get_attribute("value")`. -/
structure Element where
  eid : Nat
  text : String
  value : String
deriving DecidableEq

/-- The Python exceptions the embedded code can raise. -/
inductive PyError where
  | timeoutException
  | indexError
deriving DecidableEq

/-- One poll loop of `WebDriverWait.until` over a single-node expected
condition: return the first snapshot on which a node satisfies the condition,
raise `TimeoutException` when the snapshots are exhausted. -/
def waitUntilSome : List (Option Element) → Except PyError Element
  | [] => .error .timeoutException
  | none :: rest => waitUntilSome rest
  | some e :: _ => .ok e

/-- One poll loop of `WebDriverWait.until` over
`EC.presence_of_all_elements_located`: an empty node list is falsy, so the
loop skips it and keeps polling; it raises `TimeoutException` when no poll
ever produced a node. -/
def waitUntilNonempty : List (List Element) → Except PyError (List Element)
  | [] => .error .timeoutException
  | [] :: rest => waitUntilNonempty rest
  | (e :: es) :: _ => .ok (e :: es)

/-- The per-invocation polling environment: what each expected-condition view
of the document yields on successive polls of one action invocation. -/
structure Dom where
  presence : Locator → List (Option Element)
  visibility : Locator → List (Option Element)
  allPresence : Locator → List (List Element)

/-- `BasePage.find_element`: `wait.until(EC.presence_of_element_located((by, value)))`. -/
def find_element (dom : Dom) (loc : Locator) : Except PyError Element :=
  waitUntilSome (dom.presence loc)

/-- `BasePage.find_elements`: `wait.until(EC.presence_of_all_elements_located((by, value)))`. -/
def find_elements (dom : Dom) (loc : Locator) : Except PyError (List Element) :=
  waitUntilNonempty (dom.allPresence loc)

/-- `BasePage.is_element_visible`: waits for
`EC.visibility_of_element_located` inside `try:`, returns `True` on success
and converts a caught `TimeoutException` into `False`. -/
def is_element_visible (dom : Dom) (loc : Locator) : Bool :=
  match waitUntilSome (dom.visibility loc) with
  | .ok _ => true
  | .error _ => false

namespace LoginPage

def USERNAME_INPUT : Locator := ⟨.xpath, "//div/input[@id=\x27username\x27]"⟩

def PASSWORD_INPUT : Locator := ⟨.xpath, "//div/input[@id=\x27password\x27]"⟩

def LOGIN_BUTTON : Locator := ⟨.xpath, "//form/button[@type=\x27submit\x27]"⟩

def SUCCESS_ALERT_MESSAGE : Locator := ⟨.css, ".alert.alert-success"⟩

def UNSUCCESSFUL_ALERT_MESSAGE : Locator := ⟨.css, ".alert.alert-danger"⟩

def LOGOUT_BUTTON : Locator := ⟨.xpath, "//a[contains(text(), \x27Sign Out\x27)]"⟩

end LoginPage

namespace DashboardPage

def MAIN_BACKGROUND_IMAGE : Locator := ⟨.tag, "body"⟩

def BRANDING_ICON : Locator := ⟨.className, "branding-icon"⟩

def LINKEDIN_ICON : Locator := ⟨.xpath, "//p/a/img[@class=\x27linkedin-icon\x27]"⟩

def ADD_NEW_CAR_BUTTON : Locator := ⟨.xpath, "//nav/a[@href=\x27/add_car\x27]"⟩

def DELETE_CAR_BUTTONS : Locator :=
  ⟨.xpath, "//div[@class=\x27car-item\x27]/form/button[@class=\x27btn btn-danger\x27]"⟩

def SUCCESS_MESSAGE : Locator := ⟨.css, ".alert.alert-success"⟩

def MAKE_INPUT : Locator := ⟨.xpath, "//input[@id=\x27make\x27]"⟩

def MODEL_INPUT : Locator := ⟨.xpath, "//input[@id=\x27model\x27]"⟩

def YEAR_SELECT : Locator := ⟨.xpath, "//select/option"⟩

def DIRECTOR_INPUT : Locator := ⟨.xpath, "//input[@id=\x27director\x27]"⟩

def MAIN_SETTINGS_INPUT : Locator := ⟨.id, "main_settings"⟩

def DESCRIPTION_INPUT : Locator := ⟨.xpath, "//div/textarea[@name=\x27description\x27]"⟩

def IMAGE_INPUT : Locator := ⟨.xpath, "//input[@id=\x27image_file\x27]"⟩

def SUBMIT_BUTTON : Locator := ⟨.xpath, "//input[@id=\x27submit\x27]"⟩

def AI_REVIEW_BUTTON : Locator := ⟨.id, "ai-review-button"⟩

def AI_REVIEW_INPUT : Locator := ⟨.id, "review-input"⟩

/-- `DashboardPage.is_add_new_car_visible`: delegates to the base-page
visibility probe on `ADD_NEW_CAR_BUTTON`. -/
def is_add_new_car_visible (dom : Dom) : Bool :=
  is_element_visible dom ADD_NEW_CAR_BUTTON

/-- `DashboardPage.are_delete_buttons_visible`: locates all delete controls
inside `try:`; returns `len(delete_buttons) > 0` on success and `False` on a
caught `TimeoutException`. -/
def are_delete_buttons_visible (dom : Dom) : Bool :=
  match find_elements dom DELETE_CAR_BUTTONS with
  | .ok delete_buttons => decide (delete_buttons.length > 0)
  | .error _ => false

/-- `DashboardPage.get_success_message`: text of the success banner located
by `SUCCESS_MESSAGE`; a wait timeout propagates. -/
def get_success_message (dom : Dom) : Except PyError String :=
  (find_element dom SUCCESS_MESSAGE).map Element.text

/-- `DashboardPage.delete_last_car`. Returns the Python return value paired
with the list of delete controls actually clicked, in order. The outer
`find_elements` is not inside the `try:`, so its `TimeoutException`
propagates; the guard `len(delete_buttons) > 6` precedes any click; inside
the `try:` the last control is clicked first and only then is the success
banner read, a `TimeoutException` there yielding `False`. -/
def delete_last_car (dom : Dom) : Except PyError Bool × List Element :=
  match find_elements dom DELETE_CAR_BUTTONS with
  | .error e => (.error e, [])
  | .ok delete_buttons =>
    if delete_buttons.length > 6 then
      match delete_buttons.getLast? with
      | some btn =>
        match get_success_message dom with
        | .ok msg => (.ok (msg == "Car deleted successfully!"), [btn])
        | .error _ => (.ok false, [btn])
      | none => (.ok false, [])
    else
      (.ok false, [])

/-- Sequencing of one field lookup before the rest of an action: a raised
`TimeoutException` from the lookup propagates, otherwise the action
continues. -/
def afterFind (r : Except PyError Element) (rest : Except PyError Bool) :
    Except PyError Bool :=
  match r with
  | .error e => .error e
  | .ok _ => rest

/-- `DashboardPage.add_new_car`: fills make, model, clicks the caller-resolved
year option, fills director, settings, description, attaches the image,
clicks submit (each field found through the presence wait, whose timeout
propagates, in program order), then returns whether the success banner text
equals the confirmation f-string interpolated with the submitted make and
model. The typed-in strings and the year option only affect what is sent to
the fields, not control flow. -/
def add_new_car (make model : String) (year : Element)
    (director settings description image_path : String) (dom : Dom) :
    Except PyError Bool :=
  afterFind (find_element dom MAKE_INPUT) <|
  afterFind (find_element dom MODEL_INPUT) <|
  afterFind (find_element dom DIRECTOR_INPUT) <|
  afterFind (find_element dom MAIN_SETTINGS_INPUT) <|
  afterFind (find_element dom DESCRIPTION_INPUT) <|
  afterFind (find_element dom IMAGE_INPUT) <|
  afterFind (find_element dom SUBMIT_BUTTON) <|
  match get_success_message dom with
  | .error e => .error e
  | .ok msg => .ok (msg == "Car " ++ make ++ " " ++ model ++ " added successfully!")

end DashboardPage

/-- A Python value, as far as this code can produce one: a string, or a
coroutine object created by calling a coroutine function without awaiting
it. -/
inductive PyValue where
  | str (s : String)
  | coroutine (fn : String)
deriving DecidableEq

/-- `asyncio.wait` applied to an argument in synchronous code: since
`asyncio.wait` is a coroutine function, the call merely constructs a
coroutine object; nothing inside it (in particular not the lambda passed as
its argument) is executed, because the coroutine is never awaited or run by
an event loop. -/
def asyncio_wait (argDescription : String) : PyValue :=
  .coroutine argDescription

namespace DashboardPage

/-- `DashboardPage.get_ai_review_by_clicking_ai_review_button`: clicks the
AI-review button (presence wait, timeout propagates), then evaluates
`wait(lambda _driver: driver.find_element(By.ID, "review-input").get_attribute("value") != '')`
where `wait` is `asyncio.wait` (per `from asyncio import wait`), so the
result bound to `ai_review` and returned is the un-run coroutine object; the
lambda never executes and `review-input` is never polled, which is why
`dom` is not consulted after the button click. -/
def get_ai_review_by_clicking_ai_review_button (dom : Dom) : Except PyError PyValue := do
  let _ ← find_element dom AI_REVIEW_BUTTON
  pure (asyncio_wait "lambda _driver: ...")

end DashboardPage

/-- Python substring comparison of two character lists, head-anchored:
`chunkEq p s` is true when `p` is a prefix of `s`. -/
def chunkEq : List Char → List Char → Bool
  | [], _ => true
  | _ :: _, [] => false
  | a :: as, b :: bs => a == b && chunkEq as bs

/-- `sub in s` on character lists: true when `sub` occurs contiguously in
`s` (at the head, or anywhere in the tail). -/
def substrAt (sub : List Char) : List Char → Bool
  | [] => sub.isEmpty
  | c :: rest => chunkEq sub (c :: rest) || substrAt sub rest

/-- The Python string membership test `sub in s` (substring containment). -/
def pyIn (sub s : String) : Bool :=
  substrAt sub.data s.data

/-- A digit character as produced by `random.choices(string.digits, k=3)`. -/
def digitChar (d : Fin 10) : Char :=
  Char.ofNat (48 + d.val)

/-- The candidate username built in the loop body:
`"Auto_username" + ''.join(random.choices(string.digits, k=3))`. -/
def candidateOf (t : Fin 10 × Fin 10 × Fin 10) : String :=
  "Auto_username" ++ String.mk [digitChar t.1, digitChar t.2.1, digitChar t.2.2]

namespace RegisterPage

/-- The `while random_username in existing_users:` loop of
`RegisterPage.generate_new_random_username`, with the pseudo-random sampler
modelled as a stream of digit triples (`stream i` is the triple drawn on the
i-th iteration) and an explicit fuel bound on the number of iterations
observed (`none` means the loop was still running when the fuel ran out). -/
def usernameLoop (existing : String) (stream : Nat → Fin 10 × Fin 10 × Fin 10) :
    Nat → Nat → Option String
  | 0, _ => none
  | fuel + 1, i =>
    let random_username := candidateOf (stream i)
    if pyIn random_username existing then usernameLoop existing stream fuel (i + 1)
    else some random_username

/-- `RegisterPage.generate_new_random_username`: starts from
`existing_users[0]` (raising `IndexError` on an empty string), then loops
while the current value occurs in `existing_users`, drawing
`"Auto_username"` plus three random digits each iteration. -/
def generate_new_random_username (existing_users : String)
    (stream : Nat → Fin 10 × Fin 10 × Fin 10) (fuel : Nat) :
    Except PyError (Option String) :=
  match existing_users.data with
  | [] => .error .indexError
  | c :: _ =>
    let random_username := String.mk [c]
    if pyIn random_username existing_users then
      .ok (usernameLoop existing_users stream fuel 0)
    else
      .ok (some random_username)

end RegisterPage

/-!
Class-attribute model for the page hierarchy. A locator referenced as
`self.NAME` inside a method is resolved by Python attribute lookup along the
method-resolution order of the instance's class: the first class in the MRO
whose own class body binds `NAME` supplies the value. Likewise a method call
`self.m(...)` dispatches to the first class in the MRO whose body defines
`m`. The own-attribute tables below transcribe exactly the class bodies of
`BasePage`, `LoginPage(BasePage)`, `DashboardPage(LoginPage)` and
`RegisterPage(LoginPage)`.
-/

/-- The four page classes of the repository. -/
inductive PageClass where
  | basePage
  | loginPage
  | dashboardPage
  | registerPage
deriving DecidableEq

namespace RegisterPage

def NAV_LINKS : Locator := ⟨.xpath, "//nav/a"⟩

def FIRST_NAME : Locator := ⟨.xpath, "//input[@id=\x27firstname\x27]"⟩

def LAST_NAME : Locator := ⟨.xpath, "//input[@id=\x27lastname\x27]"⟩

def USERNAME : Locator := ⟨.xpath, "//input[@id=\x27username\x27]"⟩

def PASSWORD : Locator := ⟨.xpath, "//input[@id=\x27password\x27]"⟩

def CONFIRM_PASSWORD : Locator := ⟨.xpath, "//input[@id=\x27confirm_password\x27]"⟩

def SUBMIT_BUTTON : Locator := ⟨.xpath, "//button[text()=\x27Sign Up\x27]"⟩

end RegisterPage

/-- The locator bindings made by each class body itself (no inheritance). -/
def ownLocators : PageClass → List (String × Locator)
  | .basePage => []
  | .loginPage =>
    [("USERNAME_INPUT", LoginPage.USERNAME_INPUT),
     ("PASSWORD_INPUT", LoginPage.PASSWORD_INPUT),
     ("LOGIN_BUTTON", LoginPage.LOGIN_BUTTON),
     ("SUCCESS_ALERT_MESSAGE", LoginPage.SUCCESS_ALERT_MESSAGE),
     ("UNSUCCESSFUL_ALERT_MESSAGE", LoginPage.UNSUCCESSFUL_ALERT_MESSAGE),
     ("LOGOUT_BUTTON", LoginPage.LOGOUT_BUTTON)]
  | .dashboardPage =>
    [("MAIN_BACKGROUND_IMAGE", DashboardPage.MAIN_BACKGROUND_IMAGE),
     ("BRANDING_ICON", DashboardPage.BRANDING_ICON),
     ("LINKEDIN_ICON", DashboardPage.LINKEDIN_ICON),
     ("ADD_NEW_CAR_BUTTON", DashboardPage.ADD_NEW_CAR_BUTTON),
     ("DELETE_CAR_BUTTONS", DashboardPage.DELETE_CAR_BUTTONS),
     ("SUCCESS_MESSAGE", DashboardPage.SUCCESS_MESSAGE),
     ("MAKE_INPUT", DashboardPage.MAKE_INPUT),
     ("MODEL_INPUT", DashboardPage.MODEL_INPUT),
     ("YEAR_SELECT", DashboardPage.YEAR_SELECT),
     ("DIRECTOR_INPUT", DashboardPage.DIRECTOR_INPUT),
     ("MAIN_SETTINGS_INPUT", DashboardPage.MAIN_SETTINGS_INPUT),
     ("DESCRIPTION_INPUT", DashboardPage.DESCRIPTION_INPUT),
     ("IMAGE_INPUT", DashboardPage.IMAGE_INPUT),
     ("SUBMIT_BUTTON", DashboardPage.SUBMIT_BUTTON),
     ("LAST_CAR_ELEMENT_LOCATION", ⟨.xpath, "//div/div/div/a"⟩),
     ("REVIEW_INPUT", ⟨.xpath, "//form/textarea"⟩),
     ("SUBMIT_REVIEW_BUTTON", ⟨.id, "submit"⟩),
     ("USERS_REVIEW_AREA", ⟨.xpath, "//ul/li"⟩),
     ("AI_REVIEW_BUTTON", DashboardPage.AI_REVIEW_BUTTON),
     ("AI_REVIEW_INPUT", DashboardPage.AI_REVIEW_INPUT)]
  | .registerPage =>
    [("NAV_LINKS", RegisterPage.NAV_LINKS),
     ("FIRST_NAME", RegisterPage.FIRST_NAME),
     ("LAST_NAME", RegisterPage.LAST_NAME),
     ("USERNAME", RegisterPage.USERNAME),
     ("PASSWORD", RegisterPage.PASSWORD),
     ("CONFIRM_PASSWORD", RegisterPage.CONFIRM_PASSWORD),
     ("SUBMIT_BUTTON", RegisterPage.SUBMIT_BUTTON)]

/-- The methods each class body defines itself (names only; `login` and
`logout` appear only in `LoginPage`, neither subclass overrides them). -/
def ownMethods : PageClass → List String
  | .basePage =>
    ["__init__", "navigate_to_home_page", "find_element", "find_elements",
     "is_element_visible"]
  | .loginPage =>
    ["__init__", "navigate_to_login_page", "login", "get_success_alert_message",
     "get_unsuccessful_alert_message", "logout"]
  | .dashboardPage =>
    ["is_add_new_car_visible", "are_delete_buttons_visible", "add_new_car",
     "delete_last_car", "get_success_message", "navigate_to_add_new_car_form",
     "navigate_to_linkedin_page_and_get_current_url", "get_main_background_image",
     "get_branding_icon_url", "navigate_to_last_car_in_catalog",
     "add_manual_review", "get_user_new_review",
     "get_ai_review_by_clicking_ai_review_button", "submit_ai_review"]
  | .registerPage =>
    ["navigate_to_register_page", "get_users_list_from_api",
     "generate_new_random_username", "generate_new_random_password",
     "fill_and_submit_registration_form", "get_alert_danger_message",
     "get_alert_mismatch_password_message_color", "get_alert_mismatch_password_message"]

/-- Python method-resolution order of each class
(`C3` linearization of the single-inheritance chains here). -/
def mro : PageClass → List PageClass
  | .basePage => [.basePage]
  | .loginPage => [.loginPage, .basePage]
  | .dashboardPage => [.dashboardPage, .loginPage, .basePage]
  | .registerPage => [.registerPage, .loginPage, .basePage]

/-- Attribute lookup `self.NAME` for a locator: first MRO class whose body
binds `NAME`. -/
def getattrLocator (c : PageClass) (name : String) : Option Locator :=
  (mro c).findSome? fun k => (ownLocators k).lookup name

/-- Method dispatch `self.m`: the MRO class whose body defines `m`. -/
def resolveMethod (c : PageClass) (m : String) : Option PageClass :=
  (mro c).find? fun k => (ownMethods k).contains m

/-- A UI side effect performed through a locator. -/
inductive UIAction where
  | sendKeys (loc : Locator) (text : String)
  | click (loc : Locator)
deriving DecidableEq

/-- The effect trace of `LoginPage.login` executed on an instance of class
`c`: fill the username field, fill the password field, click the login
button, each locator resolved by attribute lookup on `c`. `none` if a
locator fails to resolve. -/
def loginTrace (c : PageClass) (username password : String) : Option (List UIAction) := do
  let u ← getattrLocator c "USERNAME_INPUT"
  let p ← getattrLocator c "PASSWORD_INPUT"
  let b ← getattrLocator c "LOGIN_BUTTON"
  pure [.sendKeys u username, .sendKeys p password, .click b]

/-- The effect trace of `LoginPage.logout` executed on an instance of class
`c`: click the logout button resolved by attribute lookup on `c`. -/
def logoutTrace (c : PageClass) : Option (List UIAction) := do
  let b ← getattrLocator c "LOGOUT_BUTTON"
  pure [.click b]

/-- The wait policy of a `selenium.webdriver.support.ui.WebDriverWait`:
timeout and poll interval, in seconds. -/
structure WebDriverWaitPolicy where
  timeoutDuration : ℚ
  pollInterval : ℚ
deriving DecidableEq

/-- Selenium's default `POLL_FREQUENCY` of 0.5 seconds. -/
def POLL_FREQUENCY : ℚ := 1 / 2

/-- The wait policy constructed by `BasePage.__init__`:
`WebDriverWait(self.driver, 10)` — a 10-second timeout with the default
poll frequency. -/
def basePageWaitPolicy : WebDriverWaitPolicy :=
  ⟨10, POLL_FREQUENCY⟩

/-- Every wait policy any code path of the repository constructs:
`BasePage.__init__` is the only site that builds a `WebDriverWait`, all four
page classes share it through inheritance, and it takes no timeout or poll
parameters from callers. -/
def constructedWaitPolicies : List WebDriverWaitPolicy :=
  [basePageWaitPolicy]

/-!
Helper lemmas about the waiter.
-/

/-- A successful all-presence wait never yields the empty list: the empty
list is falsy for `WebDriverWait.until`, so the loop skips it. -/
lemma waitUntilNonempty_ok_ne_nil {snaps : List (List Element)} {l : List Element}
    (h : waitUntilNonempty snaps = .ok l) : l ≠ [] := by
  induction snaps with
  | nil => simp [waitUntilNonempty] at h
  | cons s rest ih =>
    match s with
    | [] => exact ih (by simpa [waitUntilNonempty] using h)
    | e :: es =>
      simp only [waitUntilNonempty, Except.ok.injEq] at h
      simp [← h]

/-- If every poll of the all-presence wait yields the empty list, the wait
times out. -/
lemma waitUntilNonempty_all_nil {snaps : List (List Element)}
    (h : ∀ s ∈ snaps, s = []) : waitUntilNonempty snaps = .error .timeoutException := by
  induction snaps with
  | nil => rfl
  | cons s rest ih =>
    have hs : s = [] := h s (by simp)
    subst hs
    simpa [waitUntilNonempty] using ih (fun t ht => h t (by simp [ht]))

/-- The single-node wait raises only `TimeoutException`. -/
lemma waitUntilSome_error {snaps : List (Option Element)} {e : PyError}
    (h : waitUntilSome snaps = .error e) : e = .timeoutException := by
  induction snaps with
  | nil => exact ((by simpa [waitUntilSome] using h : PyError.timeoutException = e)).symm
  | cons s rest ih =>
    match s with
    | none => exact ih (by simpa [waitUntilSome] using h)
    | some el => simp [waitUntilSome] at h

/-- C4. The claim reads: for every query that matches zero nodes throughout
the timeout window, `find_elements` returns an empty sequence after the
timeout rather than failing. On the code this is false: an empty node list
is falsy for `WebDriverWait.until`, so `presence_of_all_elements_located`
never satisfies the wait and `find_elements` raises `TimeoutException`. At
a polling environment whose every all-presence poll yields zero nodes, the
call returns the `TimeoutException` error, not the empty sequence. -/
theorem find_elements_zero_nodes_raises :
    find_elements
      ⟨fun _ => [], fun _ => [], fun _ => [[], [], []]⟩
      DashboardPage.DELETE_CAR_BUTTONS = .error .timeoutException ∧
    find_elements
      ⟨fun _ => [], fun _ => [], fun _ => [[], [], []]⟩
      DashboardPage.DELETE_CAR_BUTTONS ≠ .ok ([] : List Element) := by
  constructor
  · rfl
  · intro h
    simp [find_elements, waitUntilNonempty] at h

/-- C4 (amended). For every query whose all-presence polls yield zero nodes
throughout the timeout window, `find_elements` raises `TimeoutException`
(it never returns an empty sequence); count-based callers must catch the
exception, as `are_delete_buttons_visible` does. -/
theorem find_elements_zero_nodes_timeout (dom : Dom) (loc : Locator)
    (h : ∀ s ∈ dom.allPresence loc, s = []) :
    find_elements dom loc = .error .timeoutException :=
  waitUntilNonempty_all_nil h

/-- C4 witness: the amended theorem applied to the concrete all-empty
polling environment. -/
theorem find_elements_zero_nodes_timeout_witness :
    find_elements
      ⟨fun _ => [], fun _ => [], fun _ => [[], []]⟩
      DashboardPage.DELETE_CAR_BUTTONS = .error .timeoutException :=
  find_elements_zero_nodes_timeout
    ⟨fun _ => [], fun _ => [], fun _ => [[], []]⟩
    DashboardPage.DELETE_CAR_BUTTONS (by intro s hs; simp at hs; exact hs)

/-- C5. The visibility probe never propagates the waiter's timeout: it
returns `true` exactly when the visibility wait succeeds and `false`
exactly when the wait raises `TimeoutException` (the only error the wait
can raise, by `waitUntilSome_error`); and `is_add_new_car_visible` is the
probe applied to the `ADD_NEW_CAR_BUTTON` locator. -/
theorem is_element_visible_total (dom : Dom) (loc : Locator) :
    (is_element_visible dom loc = true ↔ ∃ e, waitUntilSome (dom.visibility loc) = .ok e) ∧
    (is_element_visible dom loc = false ↔
      waitUntilSome (dom.visibility loc) = .error .timeoutException) ∧
    DashboardPage.is_add_new_car_visible dom =
      is_element_visible dom DashboardPage.ADD_NEW_CAR_BUTTON := by
  refine ⟨?_, ?_, rfl⟩ <;>
    cases h : waitUntilSome (dom.visibility loc) with
  | ok e => simp [is_element_visible, h]
  | error e => simp [is_element_visible, h, waitUntilSome_error h]

/-- C5 witness: the probe theorem instantiated at a polling environment
whose visibility polls never produce a node, and at one that produces a
node on the second poll. -/
theorem is_element_visible_total_witness :
    is_element_visible ⟨fun _ => [], fun _ => [none, none], fun _ => []⟩
      DashboardPage.ADD_NEW_CAR_BUTTON = false ∧
    is_element_visible ⟨fun _ => [], fun _ => [none, some ⟨1, "", ""⟩], fun _ => []⟩
      DashboardPage.ADD_NEW_CAR_BUTTON = true :=
  ⟨(is_element_visible_total ⟨fun _ => [], fun _ => [none, none], fun _ => []⟩
      DashboardPage.ADD_NEW_CAR_BUTTON).2.1.mpr rfl,
   (is_element_visible_total ⟨fun _ => [], fun _ => [none, some ⟨1, "", ""⟩], fun _ => []⟩
      DashboardPage.ADD_NEW_CAR_BUTTON).1.mpr ⟨⟨1, "", ""⟩, rfl⟩⟩

/-- C9. `are_delete_buttons_visible` is total over the page's exception
model: when the all-presence wait on the delete controls succeeds it
returns `true` (a successful wait always carries at least one node), and
when the wait raises `TimeoutException` — the only exception the wait can
raise — it catches it and returns `false`. -/
theorem are_delete_buttons_visible_total (dom : Dom) :
    (∀ l, find_elements dom DashboardPage.DELETE_CAR_BUTTONS = .ok l →
      DashboardPage.are_delete_buttons_visible dom = true) ∧
    (find_elements dom DashboardPage.DELETE_CAR_BUTTONS = .error .timeoutException →
      DashboardPage.are_delete_buttons_visible dom = false) := by
  constructor
  · intro l h
    have hne : l ≠ [] := waitUntilNonempty_ok_ne_nil h
    simp [DashboardPage.are_delete_buttons_visible, h, List.length_pos, hne]
  · intro h
    simp [DashboardPage.are_delete_buttons_visible, h]

/-- C9 witness: the totality theorem applied to a polling environment with
one delete control present, and to one where the wait times out. -/
theorem are_delete_buttons_visible_total_witness :
    DashboardPage.are_delete_buttons_visible
      ⟨fun _ => [], fun _ => [], fun _ => [[⟨1, "", ""⟩]]⟩ = true ∧
    DashboardPage.are_delete_buttons_visible
      ⟨fun _ => [], fun _ => [], fun _ => [[], []]⟩ = false :=
  ⟨(are_delete_buttons_visible_total
      ⟨fun _ => [], fun _ => [], fun _ => [[⟨1, "", ""⟩]]⟩).1 [⟨1, "", ""⟩] rfl,
   (are_delete_buttons_visible_total
      ⟨fun _ => [], fun _ => [], fun _ => [[], []]⟩).2 rfl⟩

/-- C2. The safety floor of `delete_last_car` is the literal 6: whenever the
all-presence wait locates a list of delete controls of length at most 6,
the method returns `False` with an empty click log; and any click it ever
performs happens only in a run whose located controls number strictly more
than 6. -/
theorem delete_last_car_floor (dom : Dom) :
    (∀ l, find_elements dom DashboardPage.DELETE_CAR_BUTTONS = .ok l →
      l.length ≤ 6 → DashboardPage.delete_last_car dom = (.ok false, [])) ∧
    (∀ e, e ∈ (DashboardPage.delete_last_car dom).2 →
      ∃ l, find_elements dom DashboardPage.DELETE_CAR_BUTTONS = .ok l ∧ 6 < l.length) := by
  constructor
  · intro l h hle
    simp [DashboardPage.delete_last_car, h, Nat.not_lt.mpr hle]
  · intro e he
    cases h : find_elements dom DashboardPage.DELETE_CAR_BUTTONS with
    | error err => simp [DashboardPage.delete_last_car, h] at he
    | ok l =>
      by_cases hlen : l.length > 6
      · exact ⟨l, rfl, hlen⟩
      · simp [DashboardPage.delete_last_car, h, hlen] at he

/-- C2 witness: with three located controls the method refuses and clicks
nothing; with seven located controls (and a banner read that succeeds) a
click is recorded, and the floor theorem recovers that more than six
controls existed. -/
theorem delete_last_car_floor_witness :
    DashboardPage.delete_last_car
      ⟨fun _ => [], fun _ => [],
       fun _ => [[⟨1, "", ""⟩, ⟨2, "", ""⟩, ⟨3, "", ""⟩]]⟩ = (.ok false, []) ∧
    ∃ l, find_elements
        ⟨fun _ => [some ⟨9, "Car deleted successfully!", ""⟩], fun _ => [],
         fun _ => [[⟨1, "", ""⟩, ⟨2, "", ""⟩, ⟨3, "", ""⟩, ⟨4, "", ""⟩,
                    ⟨5, "", ""⟩, ⟨6, "", ""⟩, ⟨7, "", ""⟩]]⟩
        DashboardPage.DELETE_CAR_BUTTONS = .ok l ∧ 6 < l.length :=
  ⟨(delete_last_car_floor
      ⟨fun _ => [], fun _ => [],
       fun _ => [[⟨1, "", ""⟩, ⟨2, "", ""⟩, ⟨3, "", ""⟩]]⟩).1
      [⟨1, "", ""⟩, ⟨2, "", ""⟩, ⟨3, "", ""⟩] rfl (by decide),
   (delete_last_car_floor
      ⟨fun _ => [some ⟨9, "Car deleted successfully!", ""⟩], fun _ => [],
       fun _ => [[⟨1, "", ""⟩, ⟨2, "", ""⟩, ⟨3, "", ""⟩, ⟨4, "", ""⟩,
                  ⟨5, "", ""⟩, ⟨6, "", ""⟩, ⟨7, "", ""⟩]]⟩).2
      ⟨7, "", ""⟩ (by decide)⟩

/-- C8. A `False` return from `delete_last_car` does not imply that no
click happened: in any run where the located delete controls number more
than 6, the last control is clicked before the success banner is read, and
if that banner read then raises `TimeoutException` the method still
returns `False` — with the click already recorded in the log. -/
theorem delete_last_car_false_after_click (dom : Dom) (l : List Element) (btn : Element)
    (hfind : find_elements dom DashboardPage.DELETE_CAR_BUTTONS = .ok l)
    (hlen : 6 < l.length) (hlast : l.getLast? = some btn)
    (hbanner : DashboardPage.get_success_message dom = .error .timeoutException) :
    DashboardPage.delete_last_car dom = (.ok false, [btn]) := by
  simp [DashboardPage.delete_last_car, hfind, hlen, hlast, hbanner]

/-- C8 witness: seven delete controls located, banner polls all empty —
`delete_last_car` returns `False` even though the last control was
clicked. -/
theorem delete_last_car_false_after_click_witness :
    DashboardPage.delete_last_car
      ⟨fun _ => [none], fun _ => [],
       fun _ => [[⟨1, "", ""⟩, ⟨2, "", ""⟩, ⟨3, "", ""⟩, ⟨4, "", ""⟩,
                  ⟨5, "", ""⟩, ⟨6, "", ""⟩, ⟨7, "", ""⟩]]⟩ = (.ok false, [⟨7, "", ""⟩]) :=
  delete_last_car_false_after_click
    ⟨fun _ => [none], fun _ => [],
     fun _ => [[⟨1, "", ""⟩, ⟨2, "", ""⟩, ⟨3, "", ""⟩, ⟨4, "", ""⟩,
                ⟨5, "", ""⟩, ⟨6, "", ""⟩, ⟨7, "", ""⟩]]⟩
    [⟨1, "", ""⟩, ⟨2, "", ""⟩, ⟨3, "", ""⟩, ⟨4, "", ""⟩, ⟨5, "", ""⟩, ⟨6, "", ""⟩, ⟨7, "", ""⟩]
    ⟨7, "", ""⟩ rfl (by decide) (by decide) rfl

/-- C3. Whenever `add_new_car` completes with a boolean, that boolean is
`True` exactly when the success banner text read by `get_success_message`
equals the interpolated string `"Car " ++ make ++ " " ++ model ++
" added successfully!"`. -/
theorem add_new_car_iff_banner (make model : String) (year : Element)
    (director settings description image_path : String) (dom : Dom) (b : Bool)
    (h : DashboardPage.add_new_car make model year director settings description
      image_path dom = .ok b) :
    (b = true ↔ DashboardPage.get_success_message dom =
      .ok ("Car " ++ make ++ " " ++ model ++ " added successfully!")) := by
  cases h1 : find_element dom DashboardPage.MAKE_INPUT with
  | error e => simp [DashboardPage.add_new_car, DashboardPage.afterFind, h1] at h
  | ok _ =>
  cases h2 : find_element dom DashboardPage.MODEL_INPUT with
  | error e => simp [DashboardPage.add_new_car, DashboardPage.afterFind, h1, h2] at h
  | ok _ =>
  cases h3 : find_element dom DashboardPage.DIRECTOR_INPUT with
  | error e => simp [DashboardPage.add_new_car, DashboardPage.afterFind, h1, h2, h3] at h
  | ok _ =>
  cases h4 : find_element dom DashboardPage.MAIN_SETTINGS_INPUT with
  | error e => simp [DashboardPage.add_new_car, DashboardPage.afterFind, h1, h2, h3, h4] at h
  | ok _ =>
  cases h5 : find_element dom DashboardPage.DESCRIPTION_INPUT with
  | error e => simp [DashboardPage.add_new_car, DashboardPage.afterFind, h1, h2, h3, h4, h5] at h
  | ok _ =>
  cases h6 : find_element dom DashboardPage.IMAGE_INPUT with
  | error e => simp [DashboardPage.add_new_car, DashboardPage.afterFind, h1, h2, h3, h4, h5, h6] at h
  | ok _ =>
  cases h7 : find_element dom DashboardPage.SUBMIT_BUTTON with
  | error e => simp [DashboardPage.add_new_car, DashboardPage.afterFind, h1, h2, h3, h4, h5, h6, h7] at h
  | ok _ =>
  cases h8 : DashboardPage.get_success_message dom with
  | error e => simp [DashboardPage.add_new_car, DashboardPage.afterFind, h1, h2, h3, h4, h5, h6, h7, h8] at h
  | ok msg =>
  simp [DashboardPage.add_new_car, DashboardPage.afterFind, h1, h2, h3, h4, h5, h6, h7, h8] at h
  subst h
  simp [beq_iff_eq]

/-- C3 witness: with make `"Tesla123"` and model `"ModelY456"` and a run
whose banner reads `"Car Tesla123 ModelY456 added successfully!"`, the
completed call returned `True`, and the theorem yields the biconditional
with the exact interpolated outcome. -/
theorem add_new_car_iff_banner_witness :
    true = true ↔
      DashboardPage.get_success_message
        ⟨fun _ => [some ⟨1, "Car Tesla123 ModelY456 added successfully!", ""⟩],
         fun _ => [], fun _ => []⟩ =
      .ok ("Car " ++ "Tesla123" ++ " " ++ "ModelY456" ++ " added successfully!") :=
  add_new_car_iff_banner "Tesla123" "ModelY456" ⟨7, "2024", "2024"⟩
    "director" "settings" "description" "image.png"
    ⟨fun _ => [some ⟨1, "Car Tesla123 ModelY456 added successfully!", ""⟩],
     fun _ => [], fun _ => []⟩ true rfl

/-- C6. Every wait policy the repository constructs — `BasePage.__init__`
is the sole construction site, shared by all four page classes, and it
hard-codes `WebDriverWait(self.driver, 10)` with Selenium's default
0.5-second poll frequency — satisfies the invariant
`timeoutDuration > 0 ∧ pollInterval ≤ timeoutDuration`; consequently any
candidate policy with `pollInterval > timeoutDuration` is rejected at
configuration time in the sense that no code path can construct it. -/
theorem wait_policy_invariant :
    (∀ p ∈ constructedWaitPolicies,
      0 < p.timeoutDuration ∧ p.pollInterval ≤ p.timeoutDuration) ∧
    (∀ p : WebDriverWaitPolicy,
      p.pollInterval > p.timeoutDuration → p ∉ constructedWaitPolicies) := by
  constructor
  · intro p hp
    simp only [constructedWaitPolicies, List.mem_singleton] at hp
    subst hp
    refine ⟨by norm_num [basePageWaitPolicy], ?_⟩
    norm_num [basePageWaitPolicy, POLL_FREQUENCY]
  · intro p hbad hp
    simp only [constructedWaitPolicies, List.mem_singleton] at hp
    subst hp
    exact absurd hbad (by norm_num [basePageWaitPolicy, POLL_FREQUENCY])

/-- C6 witness: the invariant instantiated at the one policy the code
builds, and the rejection instantiated at a 10-second timeout with an
11-second poll interval. -/
theorem wait_policy_invariant_witness :
    (0 < basePageWaitPolicy.timeoutDuration ∧
      basePageWaitPolicy.pollInterval ≤ basePageWaitPolicy.timeoutDuration) ∧
    (⟨10, 11⟩ : WebDriverWaitPolicy) ∉ constructedWaitPolicies :=
  ⟨wait_policy_invariant.1 basePageWaitPolicy (by simp [constructedWaitPolicies]),
   wait_policy_invariant.2 ⟨10, 11⟩ (by norm_num)⟩

/-- C7. The two pages that compose the authentication capability,
`DashboardPage` and `RegisterPage`, execute `login` and `logout` through
exactly the locator definitions and method bodies of `LoginPage`: method
dispatch for both names resolves to `LoginPage` on either subclass, the
four locators the two methods use resolve to `LoginPage`'s own bindings,
and for every credential pair the effect traces coincide with
`LoginPage`'s. -/
theorem auth_capability_composition (username password : String) :
    loginTrace .dashboardPage username password = loginTrace .loginPage username password ∧
    loginTrace .registerPage username password = loginTrace .loginPage username password ∧
    logoutTrace .dashboardPage = logoutTrace .loginPage ∧
    logoutTrace .registerPage = logoutTrace .loginPage ∧
    resolveMethod .dashboardPage "login" = some .loginPage ∧
    resolveMethod .registerPage "login" = some .loginPage ∧
    resolveMethod .dashboardPage "logout" = some .loginPage ∧
    resolveMethod .registerPage "logout" = some .loginPage ∧
    (∀ n ∈ ["USERNAME_INPUT", "PASSWORD_INPUT", "LOGIN_BUTTON", "LOGOUT_BUTTON"],
      getattrLocator .dashboardPage n = getattrLocator .loginPage n ∧
      getattrLocator .registerPage n = getattrLocator .loginPage n) := by
  refine ⟨rfl, rfl, rfl, rfl, by decide, by decide, by decide, by decide, ?_⟩
  intro n hn
  fin_cases hn <;> exact ⟨rfl, rfl⟩

/-- C7 witness: the composition theorem at concrete credentials and the
username-field locator. -/
theorem auth_capability_composition_witness :
    getattrLocator .dashboardPage "USERNAME_INPUT" = getattrLocator .loginPage "USERNAME_INPUT" ∧
    getattrLocator .registerPage "USERNAME_INPUT" = getattrLocator .loginPage "USERNAME_INPUT" :=
  (auth_capability_composition "admin" "admin1234").2.2.2.2.2.2.2.2
    "USERNAME_INPUT" (by simp)

/-- C1. The claim reads: `get_ai_review_by_clicking_ai_review_button` polls
the review-input field and, whenever the field becomes non-empty before the
bound, returns exactly the first non-empty string observed, timing out with
a distinct `TimeoutExceededError` otherwise. The code cannot do this:
`wait` is imported from `asyncio`, so the call builds an un-run coroutine
object and the polling lambda never executes. At a run in which the button
is present and the field already holds `"AI says: this car is great"`, the
method returns the coroutine object — not that string, and not any string.
The repository's own test (`test_020_user_ai_review`) logs the return value
as the generated review and asserts on it as a string, so the code
contradicts its callers and the spec states the intent. -/
theorem get_ai_review_returns_coroutine :
    DashboardPage.get_ai_review_by_clicking_ai_review_button
      ⟨fun loc => if loc = DashboardPage.AI_REVIEW_INPUT
                  then [some ⟨2, "", "AI says: this car is great"⟩]
                  else [some ⟨1, "", ""⟩],
       fun _ => [], fun _ => []⟩ = .ok (.coroutine "lambda _driver: ...") ∧
    ∀ s : String,
      DashboardPage.get_ai_review_by_clicking_ai_review_button
        ⟨fun loc => if loc = DashboardPage.AI_REVIEW_INPUT
                    then [some ⟨2, "", "AI says: this car is great"⟩]
                    else [some ⟨1, "", ""⟩],
         fun _ => [], fun _ => []⟩ ≠ .ok (.str s) := by
  constructor
  · rfl
  · intro s h
    rw [show DashboardPage.get_ai_review_by_clicking_ai_review_button
        ⟨fun loc => if loc = DashboardPage.AI_REVIEW_INPUT
                    then [some ⟨2, "", "AI says: this car is great"⟩]
                    else [some ⟨1, "", ""⟩],
         fun _ => [], fun _ => []⟩ = .ok (.coroutine "lambda _driver: ...") from rfl] at h
    simp at h

/-- A one-character string made of the first character of a non-empty
string occurs in that string, in the sense of Python `in`. -/
lemma pyIn_head (c : Char) (rest : List Char) (s : String) (hs : s.data = c :: rest) :
    pyIn (String.mk [c]) s = true := by
  simp [pyIn, substrAt, chunkEq, hs]

/-- If some iteration in the first `fuel` draws of the stream (starting at
draw `i`) produces a candidate that does not occur in `existing`, the
username loop returns a candidate drawn from the stream that does not occur
in `existing`. -/
lemma usernameLoop_finds (existing : String) (stream : Nat → Fin 10 × Fin 10 × Fin 10) :
    ∀ fuel i, (∃ k, k < fuel ∧ pyIn (candidateOf (stream (i + k))) existing = false) →
      ∃ j, RegisterPage.usernameLoop existing stream fuel i = some (candidateOf (stream j)) ∧
        pyIn (candidateOf (stream j)) existing = false := by
  intro fuel
  induction fuel with
  | zero => intro i ⟨k, hk, _⟩; exact absurd hk (Nat.not_lt_zero k)
  | succ fuel ih =>
    intro i ⟨k, hk, hgood⟩
    by_cases hcur : pyIn (candidateOf (stream i)) existing = true
    · have hk0 : k ≠ 0 := by
        intro h0
        rw [h0, Nat.add_zero] at hgood
        rw [hgood] at hcur
        exact Bool.false_ne_true hcur
      obtain ⟨k', rfl⟩ := Nat.exists_eq_succ_of_ne_zero hk0
      have : ∃ k, k < fuel ∧ pyIn (candidateOf (stream (i + 1 + k))) existing = false := by
        refine ⟨k', Nat.lt_of_succ_lt_succ hk, ?_⟩
        have : i + 1 + k' = i + (k' + 1) := by omega
        rw [this]
        exact hgood
      obtain ⟨j, hj, hjg⟩ := ih (i + 1) this
      exact ⟨j, by simpa [RegisterPage.usernameLoop, hcur] using hj, hjg⟩
    · have hfalse : pyIn (candidateOf (stream i)) existing = false :=
        Bool.not_eq_true _ ▸ Bool.of_not_eq_true hcur
      exact ⟨i, by simp [RegisterPage.usernameLoop, hfalse], hfalse⟩

/-- C10. For every non-empty `existing_users` and every pseudo-random digit
stream that eventually draws a candidate username not occurring in
`existing_users` (given the claim's hypothesis that not all 1000 candidates
occur, uniform sampling produces such a draw with probability one), the
generator terminates — some finite iteration fuel suffices — and returns
`"Auto_username"` followed by exactly three digit characters, a string that
does not occur as a substring of `existing_users`. -/
theorem generate_new_random_username_fresh (existing_users : String)
    (stream : Nat → Fin 10 × Fin 10 × Fin 10)
    (hne : existing_users ≠ "")
    (hfresh : ∃ i, pyIn (candidateOf (stream i)) existing_users = false) :
    ∃ fuel out,
      RegisterPage.generate_new_random_username existing_users stream fuel = .ok (some out) ∧
      (∃ d₁ d₂ d₃ : Fin 10,
        out = "Auto_username" ++ String.mk [digitChar d₁, digitChar d₂, digitChar d₃]) ∧
      pyIn out existing_users = false := by
  obtain ⟨i, hi⟩ := hfresh
  match hdata : existing_users.data with
  | [] =>
    exact absurd (by
      have : existing_users = "" := by
        cases existing_users with
        | mk data =>
          rw [show data = [] from by simpa using hdata]
      exact this) hne
  | c :: rest =>
    have hhead : pyIn (String.mk [c]) existing_users = true := pyIn_head c rest _ hdata
    obtain ⟨j, hj, hjg⟩ := usernameLoop_finds existing_users stream (i + 1) 0
      ⟨i, Nat.lt_succ_self i, by simpa using hi⟩
    refine ⟨i + 1, candidateOf (stream j), ?_, ?_, hjg⟩
    · unfold RegisterPage.generate_new_random_username
      rw [hdata]
      simp only [hhead, if_true]
      rw [hj]
    · obtain ⟨d₁, d₂, d₃⟩ := stream j
      exact ⟨d₁, d₂, d₃, rfl⟩

/-- C10 witness: a concrete non-empty user listing in which the constant
all-zeros stream's first candidate `"Auto_username000"` does not occur. -/
theorem generate_new_random_username_fresh_witness :
    ∃ fuel out,
      RegisterPage.generate_new_random_username "userA,userB"
        (fun _ => (0, 0, 0)) fuel = .ok (some out) ∧
      (∃ d₁ d₂ d₃ : Fin 10,
        out = "Auto_username" ++ String.mk [digitChar d₁, digitChar d₂, digitChar d₃]) ∧
      pyIn out "userA,userB" = false :=
  generate_new_random_username_fresh "userA,userB" (fun _ => (0, 0, 0))
    (by decide) ⟨0, by decide⟩

end CarSphere
